import Mathlib

/-!
# Verification of the discord-botclient bridge layer

This development shallowly embeds the bridge logic of the repository
(the `Main` class appearing, with drift, in three variants: the eris
variant `part_000`, the discord.js variant `part_001`, and
`src/app/main.js`) and settles the specification's claims about it.

Namespaces:
* `P000` — the eris variant (`src/unnamed/part_000`);
* `P001` — the discord.js variant (`src/unnamed/part_001`);
* `MainJs` — the `src/src/app/main.js` variant.

JavaScript operations that can throw are embedded as `Option`-valued
functions (`none` = the call throws / the promise rejects).  External
library calls (eris / discord.js / moment) are modelled as explicit
fields or parameters, documented at their definitions.
-/

/-- JavaScript's `Array.prototype.map` with a body that can throw: the first
throw aborts the whole map (`none`). -/
def mapJs (f : α → Option β) : List α → Option (List β)
  | [] => some []
  | a :: as => do
    let b ← f a
    let bs ← mapJs f as
    pure (b :: bs)

namespace P000

/-- A raw role object from the eris guild role cache: `id`, `name`, and the
integer `color` used by `formatMessage`'s hex conversion. -/
structure Role where
  id : String
  name : String
  color : Nat
  deriving Repr, DecidableEq

/-- The role snapshot produced by `formatMessage`: the clone of a raw role
whose `color` field has been overwritten with the computed hex string. -/
structure RoleSnapshot where
  id : String
  name : String
  color : String
  deriving Repr, DecidableEq

/-- Fuel-driven accumulator for the decimal digits of a number (the fuel is
only there to make the recursion structural; `fuel ≥ n` is always enough
since `n / 10 < n` for positive `n`). -/
def decDigitsAux : Nat → Nat → List Nat → List Nat
  | 0, _, acc => acc
  | _ + 1, 0, acc => acc
  | fuel + 1, n + 1, acc => decDigitsAux fuel ((n + 1) / 10) ((n + 1) % 10 :: acc)

/-- The decimal digits of `n`, most significant first, as produced by
JavaScript's `Number.prototype.toString()` (so `0` gives `[0]`). -/
def decDigits (n : Nat) : List Nat :=
  match n with
  | 0 => [0]
  | n + 1 => decDigitsAux (n + 1) (n + 1) []

/-- `parseInt(n.toString(), 16)`: JavaScript renders `n` in decimal and then
reparses those digits in base 16 (every decimal digit is a valid hex digit,
so the whole string is consumed). -/
def parseIntDecAsHex (n : Nat) : Nat :=
  (decDigits n).foldl (fun a d => a * 16 + d) 0

/-- The hex string `` `#${parseInt(role.color.toString(), 16)}` `` computed in
`formatMessage` of `part_000`: note the interpolated number is rendered back
in decimal, with no zero padding. -/
def roleColourHex (color : Nat) : String :=
  "#" ++ Nat.repr (parseIntDecAsHex color)

/-- The body of the role-mapping arrow in `part_000.formatMessage`: clone the
role and overwrite `color` with the computed hex string, substituting
`#fefefe` when the computed string is literally `#000000`. -/
def formatRole (role : Role) : RoleSnapshot :=
  let hex := roleColourHex role.color
  { id := role.id, name := role.name
    color := if hex == "#000000" then "#fefefe" else hex }

/-- The guild reachable from a message's channel: `msg.channel.guild`.  Only
its role cache is read by the bridge; `roles` models the eris Collection,
and `rolesGet` below models `roles.get(roleID)` (which yields `undefined`
for an unknown id). -/
structure Guild where
  roles : List (String × Role)
  deriving Repr, DecidableEq

/-- `guild.roles.get(roleID)`. -/
def Guild.rolesGet (g : Guild) (roleID : String) : Option Role :=
  g.roles.lookup roleID

/-- The channel object carried by a raw message (`msg.channel`): the bridge
reads its `id` and its `guild`. -/
structure MsgChannel where
  id : String
  guild : Guild
  deriving Repr, DecidableEq

/-- A raw user object from the library's user cache.  `bot` stands for the
data fields beyond the five whitelisted ones; `roles` is the property that
`formatMessage` writes onto the (shared) author object — absent (`none`) on
an object the library has just produced. -/
structure RawUser where
  id : String
  username : String
  discriminator : String
  avatar : String
  bot : Bool
  roles : Option (List RoleSnapshot)
  deriving Repr, DecidableEq

/-- The member object of a raw message (`msg.member`), carrying the author's
role ids for this guild. -/
structure RawMember where
  roles : List String
  deriving Repr, DecidableEq

/-- A raw eris message as read by the bridge.  `client` models the embedded
handle to the connection client that `formatMessage` deletes; `timestamp`
is epoch milliseconds. -/
structure RawMessage where
  id : String
  client : Nat
  timestamp : Nat
  content : String
  channel : MsgChannel
  author : RawUser
  member : Option RawMember
  deriving Repr, DecidableEq

/-- The author summary kept in a message snapshot: exactly the five
whitelisted fields picked at the end of `formatMessage`. -/
structure AuthorSnapshot where
  id : String
  username : String
  discriminator : String
  avatar : String
  roles : List RoleSnapshot
  deriving Repr, DecidableEq

/-- The message snapshot sent to the UI: no `client` field and no channel
object — `channel` is the bare channel identifier, so the value is acyclic
by construction. -/
structure MessageSnapshot where
  id : String
  timestamp : String
  content : String
  channel : String
  author : AuthorSnapshot
  deriving Repr, DecidableEq

/-- `moment.unix(s).format('hh:mm:ss a')`.  External moment library call;
its exact rendering is irrelevant to every claim, so it is modelled as an
injective encoding of the Unix-seconds argument. -/
def momentFormat (unixSeconds : Nat) : String :=
  "time:" ++ Nat.repr unixSeconds

/-- Resolve the member's role ids against the guild role cache and format
each role, cloning it (`Object.assign({}, role)`) with the hex color
override.  A missing role id makes the JavaScript throw (`role.color` of
`undefined`), embedded as `none`. -/
def resolveRoles (g : Guild) (ids : List String) : Option (List RoleSnapshot) :=
  mapJs (fun rid => (g.rolesGet rid).map formatRole) ids

/-- The `if (msg.member) ... else ...` branch of `part_000.formatMessage`
computing the value assigned to `msg.author.roles`: the resolved and
formatted role list when a member is present, the empty array otherwise. -/
def memberRoles (message : RawMessage) : Option (List RoleSnapshot) :=
  match message.member with
  | some mem => resolveRoles message.channel.guild mem.roles
  | none => some []

/-- `formatMessage` of `part_000`, with its heap effect made explicit.
`msg = Object.assign({}, message)` is a shallow clone, so `msg.author`
aliases `message.author`: the assignment `msg.author.roles = ...` writes
through that alias onto the library's cached user object.  The result pairs
the snapshot returned to the caller with the post-state of the shared
author object. -/
def formatMessageRun (message : RawMessage) : Option (MessageSnapshot × RawUser) :=
  (memberRoles message).map fun rolesS =>
    let authorAfter : RawUser := { message.author with roles := some rolesS }
    ({ id := message.id
       timestamp := momentFormat (message.timestamp / 1000)
       content := message.content
       channel := message.channel.id
       author := { id := authorAfter.id
                   username := authorAfter.username
                   discriminator := authorAfter.discriminator
                   avatar := authorAfter.avatar
                   roles := rolesS } },
     authorAfter)

/-- The snapshot returned by `part_000.formatMessage` (`none` when the call
throws on an unresolvable role id). -/
def formatMessage (message : RawMessage) : Option MessageSnapshot :=
  (formatMessageRun message).map Prod.fst

/-- A raw eris channel from the guild's channel cache.  The data fields are
the own properties copied by `Object.assign({}, channel)`; `canRead uid`
models the prototype-method call
`channel.permissionsOf(uid).has("readMessages")`, which is not an own
property and hence is not copied by the clone.  `type` is the eris numeric
channel type (`0` = text). -/
structure RawChannel where
  id : String
  name : String
  type : Nat
  position : Nat
  canRead : String → Bool

/-- The channel snapshot: the shallow clone of a raw channel's data
properties. -/
structure ChannelSnapshot where
  id : String
  name : String
  type : Nat
  position : Nat
  deriving Repr, DecidableEq

/-- `Object.assign({}, channel)`: copies the data properties, not the
prototype methods. -/
def cloneChannel (c : RawChannel) : ChannelSnapshot :=
  { id := c.id, name := c.name, type := c.type, position := c.position }

/-- A raw eris guild as consumed by `createServer`: the `channels`
Collection is iterated in order as `[id, channel]` entries. -/
structure RawServer where
  id : String
  name : String
  channels : List RawChannel

/-- The server snapshot broadcast on `server-create`: the shallow server
clone whose `channels` property has been replaced by the map (keyed by
channel id) of included channel clones. -/
structure ServerSnapshot where
  id : String
  name : String
  channels : List (String × ChannelSnapshot)
  deriving Repr, DecidableEq

/-- The filter applied by `createServer`'s loop in `part_000`: skip channels
whose `type != 0` and channels the bot user cannot read. -/
def includeChannel (botUserId : String) (c : RawChannel) : Bool :=
  c.type == 0 && c.canRead botUserId

/-- `createServer` of `part_000`: the broadcast snapshot paired with the
list of channel ids for which an ipc command route was registered
(`ipcMain.on(channel.id, ...)`), in registration order. -/
def createServer (botUserId : String) (server : RawServer) :
    ServerSnapshot × List String :=
  let included := server.channels.filter (includeChannel botUserId)
  ({ id := server.id
     name := server.name
     channels := included.map (fun c => (c.id, cloneChannel c)) },
   included.map (fun c => c.id))

/-- The mutable fields of the `Main` instance that the connection lifecycle
touches: the retry counter, whether the main window exists, and whether the
token window (the credential-missing surface) has been opened. -/
structure ManagerState where
  retries : Nat
  mainWindow : Bool
  tokenWindow : Bool
  deriving Repr, DecidableEq

/-- The observable effect of a disconnect: either the token window is shown
(credential-missing) or a login retry is scheduled after `delayMs`
milliseconds. -/
inductive RetryEffect where
  | showTokenWindow : RetryEffect
  | scheduleLogin (delayMs : Nat) : RetryEffect
  deriving Repr, DecidableEq

/-- `onDisconnect` of `part_000`: at `retries >= 3` reset the counter and
open the token window; otherwise increment and schedule `login` via
`setTimeout(..., 5000)`. -/
def onDisconnect (s : ManagerState) : ManagerState × RetryEffect :=
  if s.retries ≥ 3 then
    ({ s with retries := 0, tokenWindow := true }, .showTokenWindow)
  else
    ({ s with retries := s.retries + 1 }, .scheduleLogin 5000)

/-- The fulfilled branch of `bot.connect()` in `login` of `part_000`: create
the main window if it does not exist yet.  Nothing else on the instance is
touched. -/
def connectSuccess (s : ManagerState) : ManagerState :=
  if s.mainWindow then s else { s with mainWindow := true }

/-- `onMessage` of `part_000`: drop the message when no main window exists;
drop it when an active channel is set whose id differs from the message's
channel id; otherwise format and send it on the route named by the
formatted message's `channel` field (the channel id).  `none` = nothing is
delivered (including the case where `formatMessage` throws). -/
def onMessage (mainWindow : Bool) (activeChannel : Option ChannelSnapshot)
    (msg : RawMessage) : Option (String × MessageSnapshot) :=
  if !mainWindow then none
  else if (match activeChannel with
           | some ac => ac.id != msg.channel.id
           | none => false) then none
  else (formatMessage msg).map (fun fm => (fm.channel, fm))

/-- The history operation `bot.getMessages(channel.id, 50)`.  Modelled from
the spec: the external connection library's history operation returns the
most recent `limit` messages of the channel, newest first; `history` is the
channel's full message history, oldest first. -/
def getMessages (history : List RawMessage) (limit : Nat) : List RawMessage :=
  history.reverse.take limit

/-- The resolution of the history fetch promise: either the fetched raw
messages or a rejection. -/
abbrev HistoryFetch := Except String (List RawMessage)

/-- `activateChannel` of `part_000`: set the active-channel pointer (before
the asynchronous fetch resolves), then — once the promise settles — either
send the formatted messages, reversed into chronological order, as one
batch on the channel's id route, or log the error and send nothing.  A
throw inside the `.then` mapping rejects into the same `.catch`, so it also
delivers nothing. -/
def activateChannel (channel : ChannelSnapshot) (fetch : HistoryFetch) :
    Option ChannelSnapshot × List (String × List MessageSnapshot) :=
  let active := some channel
  match fetch with
  | .error _ => (active, [])
  | .ok messages =>
    match mapJs formatMessage messages with
    | none => (active, [])
    | some ms => (active, [(channel.id, ms.reverse)])

/-- A call made on the connection by `sendCommand`. -/
inductive BotCall where
  | createMessage (channelId : String) (message : String) : BotCall
  | sendTyping (channelId : String) : BotCall
  | startTyping (channelId : String) : BotCall
  | stopTyping (channelId : String) : BotCall
  deriving Repr, DecidableEq

/-- An inbound command payload.  `type := none` models a missing or falsy
`cmd.type` (JavaScript's `!cmd.type` also catches the empty string, modelled
separately); `channel` is the id of `cmd.channel` sent by the typing
command. -/
structure Cmd where
  type : Option String
  message : String
  action : Option String
  channel : String
  deriving Repr, DecidableEq

/-- `sendCommand` of `part_000`, returning the list of connection calls it
makes.  `channelId` is the id of the channel the route was bound to.  The
`typing` case resolves `cmd.channel.id` through the guild/channel maps and
calls `sendTyping()` on it, only when `action === 'start'`; there is no
stop case in this variant.  Note the `default:` case of the switch, which
sends a message exactly like the `message` case. -/
def sendCommand (channelId : String) (cmd : Option Cmd) : List BotCall :=
  match cmd with
  | none => []
  | some c =>
    match c.type with
    | none => []
    | some t =>
      if t = "" then []
      else if t = "message" then [.createMessage channelId c.message]
      else if t = "typing" then
        if c.action = some "start" then [.sendTyping c.channel] else []
      else [.createMessage channelId c.message]

/-- A connection lifecycle event consumed by the route bookkeeping. -/
inductive LifecycleEvent where
  | serverCreated (s : RawServer) : LifecycleEvent
  | channelDeleted (channelId : String) : LifecycleEvent

/-- One step of the ipc route registry: `createServer` appends one
registration per included channel every time it runs; `deleteChannel` only
broadcasts `server-update` and never deregisters anything. -/
def routeStep (botUserId : String) (routes : List String)
    (e : LifecycleEvent) : List String :=
  match e with
  | .serverCreated s => routes ++ (createServer botUserId s).2
  | .channelDeleted _ => routes

/-- The route registry after a sequence of lifecycle events. -/
def runRoutes (botUserId : String) (routes : List String)
    (es : List LifecycleEvent) : List String :=
  es.foldl (routeStep botUserId) routes

end P000

namespace P001

/-- A raw discord.js role.  `color` is the integer color copied by the
clone; `colorAsHex` models the prototype method `role.colorAsHex()`
(modelled from the spec: the library renders the color as a `#rrggbb` hex
string). -/
structure Role where
  id : String
  name : String
  color : Nat
  colorAsHex : String
  deriving Repr, DecidableEq

/-- The role snapshot of `part_001`: the clone of a raw role whose `color`
has been overwritten with the hex string (with the black → near-white
substitution). -/
structure RoleSnapshot where
  id : String
  name : String
  color : String
  deriving Repr, DecidableEq

/-- The role-mapping arrow of `part_001.formatMessage`: `role = _.clone(role)`
then `role.color = role.colorAsHex() === '#000000' ? '#fefefe' :
role.colorAsHex()`. -/
def formatRole (role : Role) : RoleSnapshot :=
  { id := role.id, name := role.name
    color := if role.colorAsHex == "#000000" then "#fefefe" else role.colorAsHex }

/-- The server reachable from a message's channel (`msg.channel.server`).
`rolesOfUser` models the discord.js method of the same name, keyed by the
author's user id. -/
structure MsgServer where
  rolesOfUser : String → List Role

/-- The channel object carried by a raw discord.js message. -/
structure MsgChannel where
  id : String
  server : MsgServer

/-- A raw discord.js user object; `roles` is the property written onto the
shared author object by `formatMessage` (absent on a cache-fresh object). -/
structure RawUser where
  id : String
  username : String
  discriminator : String
  avatar : String
  bot : Bool
  roles : Option (List RoleSnapshot)
  deriving Repr, DecidableEq

/-- A raw discord.js message as read by the bridge. -/
structure RawMessage where
  id : String
  client : Nat
  timestamp : Nat
  content : String
  channel : MsgChannel
  author : RawUser

/-- The author summary picked by `_.pick(msg.author, ['id', 'username',
'discriminator', 'avatar', 'roles'])`. -/
structure AuthorSnapshot where
  id : String
  username : String
  discriminator : String
  avatar : String
  roles : List RoleSnapshot
  deriving Repr, DecidableEq

/-- The message snapshot of the discord.js variants: `channel` holds the
bare channel id. -/
structure MessageSnapshot where
  id : String
  timestamp : String
  content : String
  channel : String
  author : AuthorSnapshot
  deriving Repr, DecidableEq

/-- `formatMessage` of `part_001` (and, verbatim, of `src/app/main.js`),
with its heap effect made explicit: `msg = _.clone(message)` is shallow, so
the two assignments to `msg.author.roles` write through the alias onto the
library's cached author object.  Returns the snapshot together with the
post-state of the shared author object. -/
def formatMessageRun (message : RawMessage) :
    MessageSnapshot × RawUser :=
  let rolesS := (message.channel.server.rolesOfUser message.author.id).map formatRole
  let authorAfter : RawUser := { message.author with roles := some rolesS }
  ({ id := message.id
     timestamp := P000.momentFormat (message.timestamp / 1000)
     content := message.content
     channel := message.channel.id
     author := { id := authorAfter.id
                 username := authorAfter.username
                 discriminator := authorAfter.discriminator
                 avatar := authorAfter.avatar
                 roles := rolesS } },
   authorAfter)

/-- The snapshot returned by `part_001.formatMessage`. -/
def formatMessage (message : RawMessage) : MessageSnapshot :=
  (formatMessageRun message).1

/-- A raw discord.js channel: `type` is the string kind (`"text"` /
`"voice"`); `canRead` models
`channel.permissionsOf(this.bot.user).serialize().readMessages` for the
connection's own user (a prototype method, not copied by `_.clone`). -/
structure RawChannel where
  id : String
  name : String
  type : String
  position : Nat
  canRead : Bool

/-- The channel snapshot: `_.clone(channel)`'s data properties. -/
structure ChannelSnapshot where
  id : String
  name : String
  type : String
  position : Nat
  deriving Repr, DecidableEq

/-- `_.clone(channel)`. -/
def cloneChannel (c : RawChannel) : ChannelSnapshot :=
  { id := c.id, name := c.name, type := c.type, position := c.position }

/-- A raw discord.js server as consumed by `createServer`. -/
structure RawServer where
  id : String
  name : String
  channels : List RawChannel

/-- The broadcast server snapshot of the discord.js variants. -/
structure ServerSnapshot where
  id : String
  name : String
  channels : List (String × ChannelSnapshot)
  deriving Repr, DecidableEq

/-- The filter of `part_001.createServer`: keep channels with
`type === 'text'` that the bot user may read. -/
def includeChannel (c : RawChannel) : Bool :=
  c.type == "text" && c.canRead

/-- `createServer` of `part_001`: snapshot plus registered route ids. -/
def createServer (server : RawServer) : ServerSnapshot × List String :=
  let included := server.channels.filter includeChannel
  ({ id := server.id
     name := server.name
     channels := included.map (fun c => (c.id, cloneChannel c)) },
   included.map (fun c => c.id))

/-- `onMessage` of `part_001`: drop the message when an active channel is
set whose id differs from the message's channel id; otherwise format and
send on the channel-id route.  (This variant has no main-window guard.) -/
def onMessage (activeChannel : Option ChannelSnapshot) (msg : RawMessage) :
    Option (String × MessageSnapshot) :=
  if (match activeChannel with
      | some ac => ac.id != msg.channel.id
      | none => false) then none
  else
    let fm := formatMessage msg
    some (fm.channel, fm)

/-- `sendCommand` of `part_001`: like `part_000`'s but the typing case calls
`startTyping` on `action === 'start'` and `stopTyping` otherwise, and the
`default:` case again sends a message. -/
def sendCommand (channelId : String) (cmd : Option P000.Cmd) : List P000.BotCall :=
  match cmd with
  | none => []
  | some c =>
    match c.type with
    | none => []
    | some t =>
      if t = "" then []
      else if t = "message" then [.createMessage channelId c.message]
      else if t = "typing" then
        if c.action = some "start" then [.startTyping c.channel]
        else [.stopTyping c.channel]
      else [.createMessage channelId c.message]

end P001

namespace MainJs

/-- The filter of `src/app/main.js`'s `createServer`: only
`channel.type !== 'text'` is checked — there is no readability check in
this variant. -/
def includeChannel (c : P001.RawChannel) : Bool :=
  c.type == "text"

/-- `createServer` of `src/app/main.js`: clones every text channel into the
snapshot (readable or not) and registers a route for each. -/
def createServer (server : P001.RawServer) :
    P001.ServerSnapshot × List String :=
  let included := server.channels.filter includeChannel
  ({ id := server.id
     name := server.name
     channels := included.map (fun c => (c.id, P001.cloneChannel c)) },
   included.map (fun c => c.id))

/-- `onMessage` of `src/app/main.js`: formats and sends every live message
on its channel-id route — there is no active-channel filter and no window
guard in this variant.  The `activeChannel` field of the instance is not
consulted. -/
def onMessage (_activeChannel : Option P001.ChannelSnapshot)
    (msg : P001.RawMessage) : Option (String × P001.MessageSnapshot) :=
  let fm := P001.formatMessage msg
  some (fm.channel, fm)

end MainJs

/-- Per-event route registrations: how many command routes a single
lifecycle event registers for channel id `cid` (`createServer` registers
one per included channel; `deleteChannel` registers none — and deregisters
none). -/
def registrationsOf (uid cid : String) : P000.LifecycleEvent → Nat
  | .serverCreated s => (P000.createServer uid s).2.count cid
  | .channelDeleted _ => 0

/-!
## Sample inputs
-/

/-- A concrete eris message: the author object has no `roles` property yet
(as for any object fresh from the library cache) and the message has no
`member`, so `formatMessage` succeeds. -/
def sampleMsgA : P000.RawMessage :=
  { id := "m1", client := 7, timestamp := 1000, content := "hello"
    channel := { id := "c1", guild := { roles := [] } }
    author := { id := "u1", username := "alice", discriminator := "0001"
                avatar := "av1", bot := false, roles := none }
    member := none }

/-- The snapshot `formatMessage` produces for `sampleMsgA`. -/
def sampleFmA : P000.MessageSnapshot :=
  { id := "m1", timestamp := "time:1", content := "hello", channel := "c1"
    author := { id := "u1", username := "alice", discriminator := "0001"
                avatar := "av1", roles := [] } }

/-- A concrete discord.js message on channel `c2`. -/
def sampleMsgB : P001.RawMessage :=
  { id := "m2", client := 3, timestamp := 2000, content := "hi"
    channel := { id := "c2", server := { rolesOfUser := fun _ => [] } }
    author := { id := "u2", username := "bob", discriminator := "0002"
                avatar := "av2", bot := false, roles := none } }

/-- A readable text channel. -/
def chGood : P000.RawChannel :=
  { id := "g", name := "general", type := 0, position := 1, canRead := fun _ => true }

/-- A voice channel (eris type 2). -/
def chVoice : P000.RawChannel :=
  { id := "v", name := "voice-1", type := 2, position := 2, canRead := fun _ => true }

/-- An eris server with one text and one voice channel. -/
def srvE : P000.RawServer := { id := "s0", name := "S0", channels := [chGood, chVoice] }

/-- A text channel the bot user is not permitted to read. -/
def chSecret : P001.RawChannel :=
  { id := "c9", name := "secret", type := "text", position := 0, canRead := false }

/-- A discord.js server whose only channel is an unreadable text channel. -/
def srvJ : P001.RawServer := { id := "s1", name := "S1", channels := [chSecret] }

/-- The `i`-th sample history message (member absent, so formatting always
succeeds). -/
def mkMsgN (i : Nat) : P000.RawMessage :=
  { id := "m" ++ Nat.repr i, client := 0, timestamp := i, content := "n" ++ Nat.repr i
    channel := { id := "ch", guild := { roles := [] } }
    author := { id := "u", username := "alice", discriminator := "0001"
                avatar := "av", bot := false, roles := none }
    member := none }

/-- The snapshot `formatMessage` produces for `mkMsgN i`. -/
def mkFmN (i : Nat) : P000.MessageSnapshot :=
  { id := "m" ++ Nat.repr i, timestamp := "time:" ++ Nat.repr (i / 1000)
    content := "n" ++ Nat.repr i, channel := "ch"
    author := { id := "u", username := "alice", discriminator := "0001"
                avatar := "av", roles := [] } }

/-!
## Helper lemmas
-/

theorem mapJs_nil (f : α → Option β) : mapJs f [] = some [] := rfl

theorem mapJs_length (f : α → Option β) :
    ∀ {as : List α} {bs : List β}, mapJs f as = some bs → bs.length = as.length := by
  intro as
  induction as with
  | nil =>
    intro bs h
    simp [mapJs] at h
    subst h
    rfl
  | cons a as ih =>
    intro bs h
    simp only [mapJs, Option.bind_eq_bind, Option.bind_eq_some, Option.pure_def,
      Option.some.injEq] at h
    obtain ⟨b, hb, t, ht, rfl⟩ := h
    simp [ih ht]

theorem mapJs_take (f : α → Option β) :
    ∀ {as : List α} {bs : List β}, mapJs f as = some bs →
      ∀ n, mapJs f (as.take n) = some (bs.take n) := by
  intro as
  induction as with
  | nil =>
    intro bs h n
    simp [mapJs] at h
    subst h
    simp [mapJs]
  | cons a as ih =>
    intro bs h n
    simp only [mapJs, Option.bind_eq_bind, Option.bind_eq_some, Option.pure_def,
      Option.some.injEq] at h
    obtain ⟨b, hb, t, ht, rfl⟩ := h
    cases n with
    | zero => simp [mapJs]
    | succ n =>
      simp only [List.take_succ_cons, mapJs, Option.bind_eq_bind, Option.pure_def, hb,
        Option.some_bind, ih ht n]

theorem mapJs_append (f : α → Option β) :
    ∀ {as as' : List α} {bs bs' : List β}, mapJs f as = some bs →
      mapJs f as' = some bs' → mapJs f (as ++ as') = some (bs ++ bs') := by
  intro as
  induction as with
  | nil =>
    intro as' bs bs' h h'
    simp [mapJs] at h
    subst h
    simpa using h'
  | cons a as ih =>
    intro as' bs bs' h h'
    simp only [mapJs, Option.bind_eq_bind, Option.bind_eq_some, Option.pure_def,
      Option.some.injEq] at h
    obtain ⟨b, hb, t, ht, rfl⟩ := h
    simp only [List.cons_append, mapJs, Option.bind_eq_bind, Option.pure_def, hb,
      Option.some_bind, List.append_eq, ih ht h']

theorem mapJs_reverse (f : α → Option β) :
    ∀ {as : List α} {bs : List β}, mapJs f as = some bs →
      mapJs f as.reverse = some bs.reverse := by
  intro as
  induction as with
  | nil =>
    intro bs h
    simpa [mapJs] using h
  | cons a as ih =>
    intro bs h
    simp only [mapJs, Option.bind_eq_bind, Option.bind_eq_some, Option.pure_def,
      Option.some.injEq] at h
    obtain ⟨b, hb, t, ht, rfl⟩ := h
    have h2 : mapJs f [a] = some [b] := by simp [mapJs, hb]
    simpa using mapJs_append f (ih ht) h2

theorem reverse_take_reverse (l : List α) (n : Nat) :
    (l.reverse.take n).reverse = l.drop (l.length - n) := by
  rw [← List.rtake_eq_reverse_take_reverse, List.rtake]

theorem formatMessage_mkMsgN (i : Nat) :
    P000.formatMessage (mkMsgN i) = some (mkFmN i) := rfl

theorem mapJs_mkMsgN (l : List Nat) :
    mapJs P000.formatMessage (l.map mkMsgN) = some (l.map mkFmN) := by
  induction l with
  | nil => rfl
  | cons i l ih =>
    simp [mapJs, formatMessage_mkMsgN i, ih]

/-- Full characterization of a successful `part_000.formatMessage` call:
the snapshot is the input with the client handle gone, the timestamp
rendered, the channel flattened to its id and the author projected to the
five whitelisted fields around the resolved role list. -/
theorem formatMessage_p000_spec (m : P000.RawMessage) (fm : P000.MessageSnapshot)
    (h : P000.formatMessage m = some fm) :
    ∃ rolesS,
      P000.memberRoles m = some rolesS ∧
      fm = { id := m.id
             timestamp := P000.momentFormat (m.timestamp / 1000)
             content := m.content
             channel := m.channel.id
             author := { id := m.author.id, username := m.author.username
                         discriminator := m.author.discriminator
                         avatar := m.author.avatar, roles := rolesS } } := by
  unfold P000.formatMessage P000.formatMessageRun at h
  cases hres : P000.memberRoles m with
  | none =>
    rw [hres] at h
    simp at h
  | some rs =>
    rw [hres] at h
    simp only [Option.map_some', Option.some.injEq] at h
    exact ⟨rs, rfl, h.symm⟩

/-!
## Claims
-/

/-- C1 counterexample: the claim says the retry counter is reset to 0
whenever the Connected state is entered; in the code a successful
`bot.connect()` resolution only creates the window, so a counter of 1
survives the (re)connection. -/
theorem c1_counterexample :
    ¬ ((P000.connectSuccess
          { retries := 1, mainWindow := false, tokenWindow := false }).retries = 0) := by
  decide

/-- C1 (amended): the retry counter is incremented on each disconnect while
below the ceiling of 3, with a login retry scheduled after the fixed
5000 ms delay; on a disconnect with the counter already at 3 (the 4th
consecutive disconnect) the counter is reset to 0 and the manager opens the
token window (CredentialMissing); a successful (re)connection leaves the
counter unchanged — it is never reset on entering Connected. -/
theorem c1_retry_discipline (s : P000.ManagerState) :
    (s.retries < 3 →
      P000.onDisconnect s =
        ({ s with retries := s.retries + 1 }, P000.RetryEffect.scheduleLogin 5000)) ∧
    (3 ≤ s.retries →
      P000.onDisconnect s =
        ({ s with retries := 0, tokenWindow := true },
          P000.RetryEffect.showTokenWindow)) ∧
    (P000.connectSuccess s).retries = s.retries := by
  refine ⟨?_, ?_, ?_⟩
  · intro h
    simp [P000.onDisconnect, Nat.not_le.mpr h]
  · intro h
    simp [P000.onDisconnect, h]
  · by_cases h : s.mainWindow <;> simp [P000.connectSuccess, h]

/-- C1 witness: the amended discipline evaluated below and at the ceiling. -/
theorem c1_retry_discipline_witness :
    P000.onDisconnect { retries := 2, mainWindow := true, tokenWindow := false } =
      ({ retries := 3, mainWindow := true, tokenWindow := false },
        P000.RetryEffect.scheduleLogin 5000) ∧
    P000.onDisconnect { retries := 3, mainWindow := true, tokenWindow := false } =
      ({ retries := 0, mainWindow := true, tokenWindow := true },
        P000.RetryEffect.showTokenWindow) :=
  ⟨(c1_retry_discipline _).1 (by decide), (c1_retry_discipline _).2.1 (by decide)⟩

/-- C2: in both variants the normalized snapshot is acyclic — its `channel`
field is the bare channel identifier (the snapshot type carries no channel
object and no client handle at all), and the author is projected to exactly
the five whitelisted fields `id`, `username`, `discriminator`, `avatar`,
`roles` (the `AuthorSnapshot` type has exactly these five, so every other
raw author field, e.g. `bot`, is dropped). -/
theorem c2_snapshot_projection :
    (∀ (m : P000.RawMessage) (fm : P000.MessageSnapshot),
        P000.formatMessage m = some fm →
        fm.channel = m.channel.id ∧
        fm.author.id = m.author.id ∧
        fm.author.username = m.author.username ∧
        fm.author.discriminator = m.author.discriminator ∧
        fm.author.avatar = m.author.avatar) ∧
    (∀ m : P001.RawMessage,
        (P001.formatMessage m).channel = m.channel.id ∧
        (P001.formatMessage m).author.id = m.author.id ∧
        (P001.formatMessage m).author.username = m.author.username ∧
        (P001.formatMessage m).author.discriminator = m.author.discriminator ∧
        (P001.formatMessage m).author.avatar = m.author.avatar) := by
  constructor
  · intro m fm h
    obtain ⟨rolesS, _, rfl⟩ := formatMessage_p000_spec m fm h
    exact ⟨rfl, rfl, rfl, rfl, rfl⟩
  · intro m
    exact ⟨rfl, rfl, rfl, rfl, rfl⟩

/-- C2 witness: the projection evaluated on a concrete message. -/
theorem c2_snapshot_projection_witness :
    sampleFmA.channel = sampleMsgA.channel.id ∧
    sampleFmA.author.id = sampleMsgA.author.id ∧
    sampleFmA.author.username = sampleMsgA.author.username ∧
    sampleFmA.author.discriminator = sampleMsgA.author.discriminator ∧
    sampleFmA.author.avatar = sampleMsgA.author.avatar :=
  c2_snapshot_projection.1 sampleMsgA sampleFmA rfl

/-- C3 counterexample: in the `src/app/main.js` variant a live message for
channel `c2` is delivered even though the active channel is `c1` — a
message whose channel differs from the active channel is not dropped
there. -/
theorem c3_counterexample :
    ({ id := "c1", name := "general", type := "text", position := 0 } :
        P001.ChannelSnapshot).id ≠ sampleMsgB.channel.id ∧
    MainJs.onMessage
        (some { id := "c1", name := "general", type := "text", position := 0 })
        sampleMsgB ≠ none := by
  constructor
  · decide
  · simp [MainJs.onMessage]

/-- C3 (amended): in `part_000`, when the main window exists and an active
channel is set, a live message is delivered (on its channel-id route) iff
its channel id equals the active channel's id — mismatches are dropped, not
buffered; when no active channel is set, every live message is delivered;
without a main window nothing is delivered; and the `src/app/main.js`
variant applies no filter at all and delivers every live message. -/
theorem c3_active_channel_filter :
    (∀ (ac : P000.ChannelSnapshot) (m : P000.RawMessage) (fm : P000.MessageSnapshot),
        P000.formatMessage m = some fm →
        P000.onMessage true (some ac) m =
          (if ac.id = m.channel.id then some (m.channel.id, fm) else none)) ∧
    (∀ (acOpt : Option P000.ChannelSnapshot) (m : P000.RawMessage),
        P000.onMessage false acOpt m = none) ∧
    (∀ (m : P000.RawMessage) (fm : P000.MessageSnapshot),
        P000.formatMessage m = some fm →
        P000.onMessage true none m = some (m.channel.id, fm)) ∧
    (∀ (acOpt : Option P001.ChannelSnapshot) (m : P001.RawMessage),
        MainJs.onMessage acOpt m = some (m.channel.id, P001.formatMessage m)) := by
  refine ⟨?_, ?_, ?_, ?_⟩
  · intro ac m fm h
    have hch : fm.channel = m.channel.id := by
      obtain ⟨rolesS, _, rfl⟩ := formatMessage_p000_spec m fm h
      rfl
    by_cases hid : ac.id = m.channel.id
    · simp [P000.onMessage, hid, h, hch]
    · simp [P000.onMessage, hid, bne_iff_ne, h]
  · intro acOpt m
    rfl
  · intro m fm h
    have hch : fm.channel = m.channel.id := by
      obtain ⟨rolesS, _, rfl⟩ := formatMessage_p000_spec m fm h
      rfl
    simp [P000.onMessage, h, hch]
  · intro acOpt m
    rfl

/-- C3 witness: with window up and active channel `c1`, the concrete
message on `c1` is delivered on route `c1`. -/
theorem c3_active_channel_filter_witness :
    P000.onMessage true (some { id := "c1", name := "general", type := 0, position := 0 })
        sampleMsgA = some (sampleMsgA.channel.id, sampleFmA) := by
  have h := c3_active_channel_filter.1
    { id := "c1", name := "general", type := 0, position := 0 } sampleMsgA sampleFmA rfl
  simpa using h

/-- C4 counterexample: in the `src/app/main.js` variant a text channel the
bot user cannot read is still included in the broadcast Server snapshot —
that variant never checks readability. -/
theorem c4_counterexample :
    chSecret.canRead = false ∧
    ("c9", P001.cloneChannel chSecret) ∈ (MainJs.createServer srvJ).1.channels := by
  exact ⟨rfl, by decide⟩

/-- C4 (amended): the `part_000` and `part_001` variants include in the
snapshot's channels map exactly the text-kind channels the connection's own
identity may read, keyed by channel id; the `src/app/main.js` variant omits
the readability check and includes every text-kind channel. -/
theorem c4_channel_inclusion :
    (∀ (uid : String) (server : P000.RawServer) (p : String × P000.ChannelSnapshot),
        p ∈ (P000.createServer uid server).1.channels ↔
          ∃ c ∈ server.channels, c.type = 0 ∧ c.canRead uid = true ∧
            p = (c.id, P000.cloneChannel c)) ∧
    (∀ (server : P001.RawServer) (p : String × P001.ChannelSnapshot),
        p ∈ (P001.createServer server).1.channels ↔
          ∃ c ∈ server.channels, c.type = "text" ∧ c.canRead = true ∧
            p = (c.id, P001.cloneChannel c)) ∧
    (∀ (server : P001.RawServer) (p : String × P001.ChannelSnapshot),
        p ∈ (MainJs.createServer server).1.channels ↔
          ∃ c ∈ server.channels, c.type = "text" ∧
            p = (c.id, P001.cloneChannel c)) := by
  refine ⟨?_, ?_, ?_⟩
  · intro uid server p
    simp only [P000.createServer, List.mem_map, List.mem_filter, P000.includeChannel,
      Bool.and_eq_true, beq_iff_eq]
    constructor
    · rintro ⟨c, ⟨hc, ht, hr⟩, rfl⟩
      exact ⟨c, hc, ht, hr, rfl⟩
    · rintro ⟨c, hc, ht, hr, rfl⟩
      exact ⟨c, ⟨hc, ht, hr⟩, rfl⟩
  · intro server p
    simp only [P001.createServer, List.mem_map, List.mem_filter, P001.includeChannel,
      Bool.and_eq_true, beq_iff_eq]
    constructor
    · rintro ⟨c, ⟨hc, ht, hr⟩, rfl⟩
      exact ⟨c, hc, ht, hr, rfl⟩
    · rintro ⟨c, hc, ht, hr, rfl⟩
      exact ⟨c, ⟨hc, ht, hr⟩, rfl⟩
  · intro server p
    simp only [MainJs.createServer, List.mem_map, List.mem_filter, MainJs.includeChannel,
      beq_iff_eq]
    constructor
    · rintro ⟨c, ⟨hc, ht⟩, rfl⟩
      exact ⟨c, hc, ht, rfl⟩
    · rintro ⟨c, hc, ht, rfl⟩
      exact ⟨c, ⟨hc, ht⟩, rfl⟩

/-- C4 witness: the inclusion criterion evaluated on a concrete two-channel
server (text+readable channel `g`, voice channel `v`). -/
theorem c4_channel_inclusion_witness :
    ("g", P000.cloneChannel chGood) ∈ (P000.createServer "u" srvE).1.channels ↔
      ∃ c ∈ srvE.channels, c.type = 0 ∧ c.canRead "u" = true ∧
        ("g", P000.cloneChannel chGood) = (c.id, P000.cloneChannel c) :=
  c4_channel_inclusion.1 "u" srvE ("g", P000.cloneChannel chGood)

/-- C6: the normalizer does mutate its input.  `msg = Object.assign({},
message)` is a shallow clone, so `msg.author` aliases the library's cached
author object, and `msg.author.roles = ...` writes the formatted role array
through the alias: after `formatMessage` the shared author object has
gained a `roles` property it did not have before. -/
theorem c6_normalizer_mutates_author :
    (P000.formatMessageRun sampleMsgA).map Prod.snd =
      some { sampleMsgA.author with roles := some [] } ∧
    ¬ ((P000.formatMessageRun sampleMsgA).map Prod.snd = some sampleMsgA.author) := by
  exact ⟨rfl, by decide⟩

/-- C9: in `part_000` the hex conversion is
`'#' + parseInt(color.toString(), 16)` — it renders the color in decimal,
reparses those digits as base-16 and interpolates the result back in
decimal with no zero padding.  Pure black (0) therefore yields `"#0"`, the
`=== '#000000'` comparison never fires, and non-black colors are garbled
(255 becomes `"#597"`).  The `part_001` variant (`colorAsHex()`) implements
the claimed behavior, showing the claim is the intent. -/
theorem c9_black_color_garbled :
    P000.formatRole { id := "r1", name := "admin", color := 0 } =
      { id := "r1", name := "admin", color := "#0" } ∧
    P000.formatRole { id := "r2", name := "mod", color := 255 } =
      { id := "r2", name := "mod", color := "#597" } ∧
    P001.formatRole { id := "r3", name := "dev", color := 0, colorAsHex := "#000000" } =
      { id := "r3", name := "dev", color := "#fefefe" } ∧
    P001.formatRole { id := "r4", name := "ops", color := 16711680, colorAsHex := "#ff0000" } =
      { id := "r4", name := "ops", color := "#ff0000" } := by
  exact ⟨rfl, rfl, rfl, rfl⟩

/-- C5: activating a channel fetches the last 50 messages (the history
operation of the external connection library, modelled from the spec,
returns the most recent `limit` messages newest-first), normalizes each,
reverses the batch into chronological oldest-first order and delivers it as
a single batch addressed to the channel's identifier; with 50+1 available
messages exactly the most recent 50 are delivered (the oldest one is
dropped). -/
theorem c5_history_batch (ch : P000.ChannelSnapshot)
    (history : List P000.RawMessage) (ms : List P000.MessageSnapshot)
    (h : mapJs P000.formatMessage history = some ms) :
    P000.activateChannel ch (Except.ok (P000.getMessages history 50)) =
      (some ch, [(ch.id, ms.drop (ms.length - 50))]) ∧
    (history.length = 51 →
      P000.activateChannel ch (Except.ok (P000.getMessages history 50)) =
        (some ch, [(ch.id, ms.drop 1)])) := by
  have hlen := mapJs_length _ h
  have h2 : mapJs P000.formatMessage (history.reverse.take 50) =
      some (ms.reverse.take 50) := mapJs_take _ (mapJs_reverse _ h) 50
  have key : P000.activateChannel ch (Except.ok (P000.getMessages history 50)) =
      (some ch, [(ch.id, (ms.reverse.take 50).reverse)]) := by
    unfold P000.activateChannel P000.getMessages
    simp only [h2]
  rw [key, reverse_take_reverse]
  refine ⟨rfl, fun h51 => ?_⟩
  rw [hlen, h51]

/-- C5 witness: a concrete 51-message history delivers exactly the
most recent 50, oldest first, as one batch on the channel's route. -/
theorem c5_history_batch_witness :
    P000.activateChannel { id := "ch", name := "general", type := 0, position := 0 }
        (Except.ok (P000.getMessages ((List.range 51).map mkMsgN) 50)) =
      (some { id := "ch", name := "general", type := 0, position := 0 },
        [("ch", ((List.range 51).map mkFmN).drop 1)]) :=
  (c5_history_batch _ ((List.range 51).map mkMsgN) ((List.range 51).map mkFmN)
      (mapJs_mkMsgN (List.range 51))).2 (by simp)

/-- C7 counterexample: an inbound command with the unrecognized type
`"garbage"` falls into the switch's `default:` case, which calls the
connection's send-message operation — not a no-op as the claim states. -/
theorem c7_counterexample :
    P000.sendCommand "c1"
        (some { type := some "garbage", message := "hi", action := none, channel := "c1" }) =
      [P000.BotCall.createMessage "c1" "hi"] ∧
    P000.sendCommand "c1"
        (some { type := some "garbage", message := "hi", action := none, channel := "c1" }) ≠
      [] := by
  exact ⟨rfl, by decide⟩

/-- C7 (amended): an absent payload or an absent/empty `type` produces no
connection call; `type: "message"` sends a message; `type: "typing"`
forwards typing status (start only in `part_000`; start/stop in
`part_001`); but any other `type` value is handled by the switch's
`default:` case and sends a message exactly like `"message"`. -/
theorem c7_command_dispatch (chId : String) (c : P000.Cmd) :
    (P000.sendCommand chId none = [] ∧ P001.sendCommand chId none = []) ∧
    (c.type = none →
      P000.sendCommand chId (some c) = [] ∧ P001.sendCommand chId (some c) = []) ∧
    (c.type = some "" →
      P000.sendCommand chId (some c) = [] ∧ P001.sendCommand chId (some c) = []) ∧
    (c.type = some "message" →
      P000.sendCommand chId (some c) = [P000.BotCall.createMessage chId c.message] ∧
      P001.sendCommand chId (some c) = [P000.BotCall.createMessage chId c.message]) ∧
    (c.type = some "typing" →
      (P000.sendCommand chId (some c) =
        if c.action = some "start" then [P000.BotCall.sendTyping c.channel] else []) ∧
      (P001.sendCommand chId (some c) =
        if c.action = some "start" then [P000.BotCall.startTyping c.channel]
        else [P000.BotCall.stopTyping c.channel])) ∧
    (∀ t, c.type = some t → t ≠ "" → t ≠ "message" → t ≠ "typing" →
      P000.sendCommand chId (some c) = [P000.BotCall.createMessage chId c.message] ∧
      P001.sendCommand chId (some c) = [P000.BotCall.createMessage chId c.message]) := by
  refine ⟨⟨rfl, rfl⟩, ?_, ?_, ?_, ?_, ?_⟩
  · intro h
    exact ⟨by simp [P000.sendCommand, h], by simp [P001.sendCommand, h]⟩
  · intro h
    exact ⟨by simp [P000.sendCommand, h], by simp [P001.sendCommand, h]⟩
  · intro h
    exact ⟨by simp [P000.sendCommand, h], by simp [P001.sendCommand, h]⟩
  · intro h
    exact ⟨by simp [P000.sendCommand, h], by simp [P001.sendCommand, h]⟩
  · intro t h ht1 ht2 ht3
    exact ⟨by simp [P000.sendCommand, h, ht1, ht2, ht3],
           by simp [P001.sendCommand, h, ht1, ht2, ht3]⟩

/-- C7 witness: the dispatch evaluated on a concrete `message` command. -/
theorem c7_command_dispatch_witness :
    P000.sendCommand "c1"
        (some { type := some "message", message := "yo", action := none, channel := "c1" }) =
      [P000.BotCall.createMessage "c1" "yo"] ∧
    P001.sendCommand "c1"
        (some { type := some "message", message := "yo", action := none, channel := "c1" }) =
      [P000.BotCall.createMessage "c1" "yo"] :=
  (c7_command_dispatch "c1" _).2.2.2.1 rfl

/-- C8 counterexample: after creating server `S0` (text channel `g`) and
then deleting channel `g`, the route for `g` is still registered
(`deleteChannel` deregisters nothing); and broadcasting the same server
twice registers the route twice (registration is not exactly-once). -/
theorem c8_counterexample :
    (P000.runRoutes "u" [] [P000.LifecycleEvent.serverCreated srvE,
        P000.LifecycleEvent.channelDeleted "g"]).count "g" = 1 ∧
    (P000.runRoutes "u" [] [P000.LifecycleEvent.serverCreated srvE,
        P000.LifecycleEvent.serverCreated srvE]).count "g" = 2 := by
  exact ⟨rfl, rfl⟩

/-- C8 (amended): the route registry only accumulates: each `createServer`
broadcast appends one route per included channel (so re-broadcasting a
server duplicates its routes) and channel deletion deregisters nothing —
after any event sequence the number of live routes for a channel id equals
the initial count plus the number of times a server-created event included
that channel. -/
theorem c8_routes_accumulate (uid cid : String) (init : List String)
    (es : List P000.LifecycleEvent) :
    (P000.runRoutes uid init es).count cid =
      init.count cid + (es.map (registrationsOf uid cid)).sum := by
  induction es generalizing init with
  | nil => simp [P000.runRoutes]
  | cons e es ih =>
    cases e with
    | serverCreated s =>
      simp only [P000.runRoutes, List.foldl_cons, List.map_cons, List.sum_cons] at *
      rw [ih]
      simp [P000.routeStep, registrationsOf, List.count_append]
      omega
    | channelDeleted cid' =>
      simp only [P000.runRoutes, List.foldl_cons, List.map_cons, List.sum_cons] at *
      rw [ih]
      simp [P000.routeStep, registrationsOf]

/-- C8 witness: the accumulation law evaluated on a concrete trace. -/
theorem c8_routes_accumulate_witness :
    (P000.runRoutes "u" [] [P000.LifecycleEvent.serverCreated srvE]).count "g" =
      ([] : List String).count "g" +
        ([P000.LifecycleEvent.serverCreated srvE].map (registrationsOf "u" "g")).sum :=
  c8_routes_accumulate "u" "g" [] [P000.LifecycleEvent.serverCreated srvE]

/-- C10: `activateChannel` sets the active-channel pointer before the
asynchronous history fetch resolves, keeps it whatever the fetch outcome,
and on a rejected fetch sends nothing to the UI. -/
theorem c10_activate_pointer_persists (ch : P000.ChannelSnapshot)
    (fetch : P000.HistoryFetch) :
    (P000.activateChannel ch fetch).1 = some ch ∧
    (∀ e, fetch = Except.error e → (P000.activateChannel ch fetch).2 = []) := by
  constructor
  · cases fetch with
    | error e => rfl
    | ok messages =>
      unfold P000.activateChannel
      cases h : mapJs P000.formatMessage messages <;> simp [h]
  · intro e he
    subst he
    rfl

/-- C10 witness: a failed fetch for a concrete channel leaves the pointer
on that channel and delivers nothing. -/
theorem c10_activate_pointer_persists_witness :
    (P000.activateChannel { id := "c1", name := "general", type := 0, position := 0 }
        (Except.error "boom")).1 =
      some { id := "c1", name := "general", type := 0, position := 0 } ∧
    (P000.activateChannel { id := "c1", name := "general", type := 0, position := 0 }
        (Except.error "boom")).2 = [] :=
  ⟨(c10_activate_pointer_persists _ _).1,
   (c10_activate_pointer_persists _ _).2 "boom" rfl⟩
